import Mathlib

/-!
Verification of the orders_project batch pipeline: a shallow embedding of
`jobs/build_samples.py` (deterministic sampling, row cap, parquet write,
column profiling) and `src/ingestao/download_public_data.py` (HTTP download
of raw resources), with theorems settling the specified properties.
-/

namespace OrdersProject

/-- Cell values of a table: the engine's value domain, with an explicit
null (empty CSV cells, permissive-JSON placeholders). -/
inductive Val where
  | null : Val
  | int : Int → Val
  | str : String → Val
deriving DecidableEq, Repr

/-- A row is a list of cell values, positionally aligned with the table's
column list. -/
abbrev Row := List Val

/-- A dataframe as the engine presents it: an ordered list of column names
and a list of rows (`df.columns`, the row collection). -/
structure Table where
  cols : List String
  rows : List Row
deriving DecidableEq, Repr

/-- A 64-bit linear-congruential step, the pseudo-random generator backing
the embedded Bernoulli sampler (the engine uses a seeded XorShift stream;
any fixed deterministic generator seeded only from `seed` is faithful to
`df.sample(False, fraction, seed)`). -/
def lcg (s : Nat) : Nat := (6364136223846793005 * s + 1442695040888963407) % 2 ^ 64

/-- Bernoulli row walk: each row is kept when the current generator draw
falls below `num/den` (the sampling fraction), threading the generator
state through the rows; without replacement, so each row appears at most
once. Embeds `df.sample(withReplacement=False, fraction=frac, seed=seed)`. -/
def bernoulliWalk (num den : Nat) : Nat → List Row → List Row
  | _, [] => []
  | st, r :: rs =>
    let st' := lcg st
    if st' % den < num then r :: bernoulliWalk num den st' rs
    else bernoulliWalk num den st' rs

/-- Deterministic sample of a table: seed the generator from `seed` alone
and run the Bernoulli walk over the rows; the fraction is `num/den`
(the job uses `frac = 0.01`, i.e. `1/100`). Columns are unchanged. -/
def sampleTable (seed num den : Nat) (t : Table) : Table :=
  ⟨t.cols, bernoulliWalk num den (lcg seed) t.rows⟩

/-- Run environment of one invocation: state that differs between two
independent runs (process id, wall-clock time). `df.sample` is seeded
explicitly, so none of this reaches the sampler. -/
structure RunEnv where
  processId : Nat
  wallClock : Nat
deriving DecidableEq, Repr

/-- Sampling as performed by one invocation of the job in environment
`env`: the seed passed to the engine is the hardcoded `seed` constant, so
the environment is not consulted. Embeds one run of the `df.sample` call. -/
def sampleRun : RunEnv → Nat → Nat → Nat → Table → Table :=
  fun _ seed num den t => sampleTable seed num den t

/-- Row cap: `df.limit(c)` keeps at most `c` rows of the sample. -/
def capTable (c : Nat) (t : Table) : Table :=
  ⟨t.cols, t.rows.take c⟩

/-- The value of row `r` at column index `i`; a missing cell (ragged row)
reads as null, matching permissive parsing. -/
def cellAt (r : Row) (i : Nat) : Val := r.getD i Val.null

/-- All values of column `i` down the rows of `t`. -/
def colValues (t : Table) (i : Nat) : List Val :=
  t.rows.map (fun r => cellAt r i)

/-- One line of the quick profile for a column: `non_null` embeds
`F.count(F.col(c))` (nulls are not counted), `distinct` embeds
`F.countDistinct(F.col(c))` (distinct non-null values), and
`nulls = n - non_null` exactly as computed in `quick_profile`. -/
structure ColStat where
  name : String
  non_null : Nat
  distinct : Nat
  nulls : Nat
deriving DecidableEq, Repr

/-- Profile of column `i` (named `c`) of table `t`: the aggregation row
`df.agg(F.count(col), F.countDistinct(col))` followed by the driver-side
subtraction `nulls = n - non_null`. -/
def profileCol (t : Table) (i : Nat) (c : String) : ColStat :=
  let vs := (colValues t i).filter (fun v => v ≠ Val.null)
  { name := c
    non_null := vs.length
    distinct := vs.dedup.length
    nulls := t.rows.length - vs.length }

/-- The profiling loop body: one `ColStat` per selected column, in column
order, keeping track of each column's positional index. -/
def profileCols (t : Table) : Nat → List String → List ColStat
  | _, [] => []
  | i, c :: cs => profileCol t i c :: profileCols t (i + 1) cs

/-- Embeds `quick_profile(df, name, max_cols=10)`: `n = df.count()`, then
`cols = df.columns[:max_cols]` and one aggregation per selected column.
Returns the row count and the per-column stats (the printed report). -/
def quick_profile (t : Table) (max_cols : Nat := 10) : Nat × List ColStat :=
  (t.rows.length, profileCols t 0 (t.cols.take max_cols))

/-- A filesystem of parquet artifacts / raw tables: a partial map from
path to table content. -/
def FsT := String → Option Table

/-- The empty filesystem. -/
def fsEmpty : FsT := fun _ => none

/-- Embeds `df.write.mode("overwrite").parquet(path)`: the destination is
replaced unconditionally with the written table. -/
def writeParquet (fs : FsT) (path : String) (t : Table) : FsT :=
  fun p => if p = path then some t else fs p

/-- Embeds `spark.read...` on a raw path: succeeds with the parsed table
when the file exists, and raises (AnalysisException) when the path does
not exist. Permissive-mode parse tolerance is internal to the parsed
table; only a missing/unreadable file is a failure. -/
def readPermissive (fs : FsT) (p : String) : Except String Table :=
  match fs p with
  | some t => Except.ok t
  | none => Except.error ("AnalysisException: Path does not exist: " ++ p)

/-- The output base directory of the job. -/
def outBase : String := "data/processed/samples"

/-- One iteration of the write loop of `main`: cap the sampled dataframe
at 100,000 rows, write it as parquet under `out_base/name` (overwrite),
and run `quick_profile` on the same capped dataframe. The accumulator
carries the output filesystem and the report list. -/
def processOne (acc : FsT × List (String × Table × (Nat × List ColStat)))
    (nameDf : String × Table) : FsT × List (String × Table × (Nat × List ColStat)) :=
  let df := capTable 100000 nameDf.2
  let outFs := writeParquet acc.1 (outBase ++ "/" ++ nameDf.1) df
  (outFs, acc.2 ++ [(nameDf.1, df, quick_profile df)])

/-- The raw-input paths of the four configured datasets, as in `paths`. -/
def pOrder : String := "data/raw/order/order.json"

/-- Raw path of the consumer dataset. -/
def pConsumer : String := "data/raw/consumer/consumer.csv"

/-- Raw path of the restaurant dataset. -/
def pRestaurant : String := "data/raw/restaurant/restaurant.csv"

/-- Raw path of the ab-test dataset. -/
def pAbTest : String := "data/raw/ab_test_ref/ab_test_ref.csv"

/-- Embeds `main()` of `jobs/build_samples.py`: read the four raw
datasets in order (each read raises if its path is missing — there is no
exception handler, so the first failure aborts the whole run before any
write), sample each with `frac = 0.01 = 1/100` and `seed = 42`, then run
the cap/write/profile loop over the four samples in declared order.
Returns the final output filesystem and the per-dataset reports, or the
first read error. -/
def runMain (rawFs : FsT) (outFs : FsT) :
    Except String (FsT × List (String × Table × (Nat × List ColStat))) :=
  match readPermissive rawFs pOrder with
  | Except.error e => Except.error e
  | Except.ok dfOrder =>
    match readPermissive rawFs pConsumer with
    | Except.error e => Except.error e
    | Except.ok dfConsumer =>
      match readPermissive rawFs pRestaurant with
      | Except.error e => Except.error e
      | Except.ok dfRestaurant =>
        match readPermissive rawFs pAbTest with
        | Except.error e => Except.error e
        | Except.ok dfAbTest =>
          let samples := [
            ("order_sample", sampleTable 42 1 100 dfOrder),
            ("consumer_sample", sampleTable 42 1 100 dfConsumer),
            ("restaurant_sample", sampleTable 42 1 100 dfRestaurant),
            ("ab_test_sample", sampleTable 42 1 100 dfAbTest)]
          Except.ok (samples.foldl processOne (outFs, []))

/-- A filesystem of downloaded byte files: path to byte content. -/
def FsB := String → Option (List Nat)

/-- The empty byte filesystem. -/
def fsbEmpty : FsB := fun _ => none

/-- An HTTP response as the downloader sees it: a status code, the chunk
sequence the server would stream (`r.iter_content(chunk_size)`), how many
chunks actually arrive before the connection breaks, and whether it
breaks at all. -/
structure HttpResp where
  status : Nat
  body : List (List Nat)
  delivered : Nat
  interrupted : Bool

/-- Embeds `r.raise_for_status()`: ok on a 2xx status, raises `HTTPError`
otherwise. -/
def raiseForStatus (r : HttpResp) : Except String Unit :=
  if 200 ≤ r.status ∧ r.status < 300 then Except.ok ()
  else Except.error "HTTPError"

/-- The chunk sequence the download loop actually iterates: the full body
when the stream completes, or the delivered part when it breaks. -/
def chunksSeen (r : HttpResp) : List (List Nat) :=
  if r.interrupted then r.body.take r.delivered else r.body

/-- The bytes written to the destination: each seen chunk is appended in
order, empty chunks skipped by the `if chunk:` guard. -/
def bytesWritten (r : HttpResp) : List Nat :=
  ((chunksSeen r).filter (fun c => c ≠ [])).flatten

/-- Embeds `download_file(url, dest)`: `raise_for_status` runs before the
destination is opened, so a bad status leaves the filesystem untouched;
on a 2xx status the file is opened in write mode at `dest` itself (no
temporary path) and the seen chunks are written there in order; an
interrupted stream then raises after the partial content is in place. -/
def download_file (resp : String → HttpResp) (url : String) (fs : FsB)
    (dest : String) : FsB × Except String Unit :=
  let r := resp url
  match raiseForStatus r with
  | Except.error e => (fs, Except.error e)
  | Except.ok () =>
    let fs' : FsB := fun p => if p = dest then some (bytesWritten r) else fs p
    if r.interrupted then (fs', Except.error "ConnectionError")
    else (fs', Except.ok ())

/-- Embeds the loop of `main()` in `download_public_data.py`: for each
configured `(fname, url)` in order, download into `data/raw/<fname>`.
There is no exception handler around `download_file`, so the first
failure propagates and the remaining resources are not visited. -/
def downloadMain (resp : String → HttpResp) :
    List (String × String) → FsB → FsB × Except String Unit
  | [], fs => (fs, Except.ok ())
  | (fname, url) :: rest, fs =>
    match download_file resp url fs ("data/raw/" ++ fname) with
    | (fs', Except.ok ()) => downloadMain resp rest fs'
    | (fs', Except.error e) => (fs', Except.error e)

/-- The spec's CSV scenario: header `id,name,age`, three rows, exactly one
empty `age` cell (the two present ages are distinct values). -/
def csvAge : Table :=
  ⟨["id", "name", "age"],
   [[Val.int 1, Val.str "ana", Val.int 25],
    [Val.int 2, Val.str "bob", Val.int 30],
    [Val.int 3, Val.str "caio", Val.null]]⟩

/-- A one-row, one-column table used to populate concrete filesystems. -/
def tinyTable : Table := ⟨["id"], [[Val.int 1]]⟩

/-- A raw-input filesystem where the consumer, restaurant and ab-test
files exist but the order file is missing. -/
def fs8 : FsT := fun p =>
  if p = pConsumer then some tinyTable
  else if p = pRestaurant then some tinyTable
  else if p = pAbTest then some tinyTable
  else none

/-- A remote server where resource `a` answers 404 and resource `b`
answers 200 with one chunk. -/
def resp9 : String → HttpResp := fun url =>
  if url = "https://example.com/a.csv.gz" then ⟨404, [], 0, false⟩
  else ⟨200, [[1, 2, 3]], 1, false⟩

/-- Two configured resources, the first of which fails with 404. -/
def files9 : List (String × String) :=
  [("a.csv.gz", "https://example.com/a.csv.gz"),
   ("b.csv.gz", "https://example.com/b.csv.gz")]

/-- A remote server whose response streams one of two chunks and then
breaks the connection. -/
def respTrunc : String → HttpResp := fun _ => ⟨200, [[1, 2], [3, 4]], 1, true⟩

theorem bernoulliWalk_length_le (num den : Nat) :
    ∀ (st : Nat) (rs : List Row), (bernoulliWalk num den st rs).length ≤ rs.length := by
  intro st rs
  induction rs generalizing st with
  | nil => simp [bernoulliWalk]
  | cons r rs ih =>
    simp only [bernoulliWalk]
    split
    · simpa using ih (lcg st)
    · exact Nat.le_succ_of_le (ih (lcg st))

theorem sampleTable_length_le (seed num den : Nat) (t : Table) :
    (sampleTable seed num den t).rows.length ≤ t.rows.length :=
  bernoulliWalk_length_le num den (lcg seed) t.rows

theorem profileCols_map_name (t : Table) :
    ∀ (i : Nat) (cs : List String), (profileCols t i cs).map ColStat.name = cs := by
  intro i cs
  induction cs generalizing i with
  | nil => rfl
  | cons c cs ih => simp [profileCols, profileCol, ih]

theorem mem_profileCols {t : Table} {s : ColStat} :
    ∀ {i : Nat} {cs : List String}, s ∈ profileCols t i cs → ∃ j c, s = profileCol t j c := by
  intro i cs
  induction cs generalizing i with
  | nil => intro h; cases h
  | cons c cs ih =>
    intro h
    rcases List.mem_cons.mp h with h | h
    · exact ⟨i, c, h⟩
    · exact ih h

theorem profileCol_non_null_le (t : Table) (i : Nat) (c : String) :
    (profileCol t i c).non_null ≤ t.rows.length := by
  calc (profileCol t i c).non_null
      ≤ (colValues t i).length := List.length_filter_le _ _
    _ = t.rows.length := List.length_map _ _

/-- C1: for every raw table and every cap `C ≥ 0`, the capped sample has
at most `C` rows and at most `min C |raw|` rows; moreover the write loop
persists, at the dataset's output path, a table of at most 100,000 rows
(the configured cap). -/
theorem cap_invariant (t : Table) (C seed num den : Nat) (outFs : FsT)
    (res : List (String × Table × (Nat × List ColStat))) (name : String) :
    (capTable C (sampleTable seed num den t)).rows.length ≤ C ∧
    (capTable C (sampleTable seed num den t)).rows.length ≤ min C t.rows.length ∧
    ∃ written,
      (processOne (outFs, res) (name, sampleTable seed num den t)).1
          (outBase ++ "/" ++ name) = some written ∧
      written.rows.length ≤ 100000 := by
  refine ⟨?_, ?_, capTable 100000 (sampleTable seed num den t), ?_, ?_⟩
  · simp [capTable]
  · simp only [capTable, List.length_take]
    exact min_le_min (Nat.le_refl C) (sampleTable_length_le seed num den t)
  · simp [processOne, writeParquet]
  · simp [capTable]

/-- C2: sampling is deterministic across independent invocations — two
runs in different environments (process id, wall clock) with the same
raw table, seed and fraction produce the same sample, hence the same
included-row set. -/
theorem sample_deterministic (e1 e2 : RunEnv) (seed num den : Nat) (t : Table) :
    sampleRun e1 seed num den t = sampleRun e2 seed num den t ∧
    (sampleRun e1 seed num den t).rows.toFinset =
      (sampleRun e2 seed num den t).rows.toFinset :=
  ⟨rfl, rfl⟩

/-- C3: within one loop iteration the persisted artifact and the profiled
table coincide — the table stored at the output path is exactly the
capped sample, and the report appended for the dataset is
`quick_profile` of that same table. -/
theorem profile_matches_persisted (outFs : FsT)
    (res : List (String × Table × (Nat × List ColStat))) (name : String) (df : Table) :
    ∃ written profile,
      (processOne (outFs, res) (name, df)).1 (outBase ++ "/" ++ name) = some written ∧
      (processOne (outFs, res) (name, df)).2 = res ++ [(name, written, profile)] ∧
      profile = quick_profile written := by
  refine ⟨capTable 100000 df, quick_profile (capTable 100000 df), ?_, rfl, rfl⟩
  simp [processOne, writeParquet]

theorem length_filter_null_split (l : List Val) :
    (l.filter (fun v => v ≠ Val.null)).length +
      (l.filter (fun v => v = Val.null)).length = l.length := by
  induction l with
  | nil => rfl
  | cons v vs ih =>
    by_cases hv : v = Val.null <;> simp [hv, List.filter_cons] at ih ⊢ <;> omega

/-- C4: for every sample table and every profiled column, the reported
null count plus the non-null count equals the row count of that table. -/
theorem null_count_consistency (t : Table) (K : Nat) (s : ColStat)
    (hs : s ∈ (quick_profile t K).2) :
    s.nulls + s.non_null = (quick_profile t K).1 := by
  obtain ⟨j, c, rfl⟩ := mem_profileCols hs
  have hle := profileCol_non_null_le t j c
  have hn : (profileCol t j c).nulls =
      t.rows.length - (profileCol t j c).non_null := rfl
  have h1 : (quick_profile t K).1 = t.rows.length := rfl
  omega

/-- Witness for C4 at the spec's CSV scenario: the age column of `csvAge`
is profiled with nulls 1 and non-null 2, and 1 + 2 is its row count 3. -/
theorem null_count_consistency_witness :
    (⟨"age", 2, 2, 1⟩ : ColStat) ∈ (quick_profile csvAge 10).2 ∧
    (⟨"age", 2, 2, 1⟩ : ColStat).nulls + (⟨"age", 2, 2, 1⟩ : ColStat).non_null =
      (quick_profile csvAge 10).1 :=
  ⟨by decide, null_count_consistency csvAge 10 ⟨"age", 2, 2, 1⟩ (by decide)⟩

/-- C5: the profiler reports exact counts — for every table and column,
the non-null count plus the number of null cells is the row count, and
the distinct count is the cardinality of the set of non-null values; in
particular, on the CSV scenario (header `id,name,age`, 3 rows, one empty
age cell) it reports age: nulls=1, distinct=2. -/
theorem profile_exact_counts :
    (∀ (t : Table) (i : Nat) (c : String),
        (profileCol t i c).non_null +
          ((colValues t i).filter (fun v => v = Val.null)).length = t.rows.length ∧
        (profileCol t i c).distinct =
          ((colValues t i).filter (fun v => v ≠ Val.null)).toFinset.card) ∧
    quick_profile csvAge =
      (3, [⟨"id", 3, 3, 0⟩, ⟨"name", 3, 3, 0⟩, ⟨"age", 2, 2, 1⟩]) := by
  constructor
  · intro t i c
    constructor
    · have h := length_filter_null_split (colValues t i)
      have hm : (colValues t i).length = t.rows.length := List.length_map _ _
      have hnn : (profileCol t i c).non_null =
          ((colValues t i).filter (fun v => v ≠ Val.null)).length := rfl
      omega
    · exact (List.card_toFinset _).symm
  · decide

/-- C6: the profiler analyzes exactly the first `K` columns in table
order (all columns when there are fewer than `K`), and the default is
`K = 10`. -/
theorem profiled_columns_first_k (t : Table) (K : Nat) :
    ((quick_profile t K).2).map ColStat.name = t.cols.take K ∧
    ((quick_profile t).2).map ColStat.name = t.cols.take 10 ∧
    (t.cols.length ≤ K → ((quick_profile t K).2).map ColStat.name = t.cols) := by
  refine ⟨?_, ?_, fun h => ?_⟩
  · simpa [quick_profile] using profileCols_map_name t 0 (t.cols.take K)
  · simpa [quick_profile] using profileCols_map_name t 0 (t.cols.take 10)
  · simpa [quick_profile, List.take_of_length_le h] using
      profileCols_map_name t 0 (t.cols.take K)

/-- Witness for C6: `csvAge` has 3 columns, fewer than 5, so profiling
with `K = 5` analyzes all of them. -/
theorem profiled_columns_first_k_witness :
    csvAge.cols.length ≤ 5 ∧
    ((quick_profile csvAge 5).2).map ColStat.name = csvAge.cols :=
  ⟨by decide, (profiled_columns_first_k csvAge 5).2.2 (by decide)⟩

/-- C7: on a raw table with zero rows the sample is empty, the write
succeeds and persists a zero-row table, and profiling reports row count
0 and, for every profiled column, nulls 0 and distinct 0. -/
theorem empty_raw_pipeline (cols : List String) (seed num den K : Nat) (outFs : FsT)
    (res : List (String × Table × (Nat × List ColStat))) (name : String) :
    (sampleTable seed num den ⟨cols, []⟩).rows = [] ∧
    ∃ written,
      (processOne (outFs, res) (name, sampleTable seed num den ⟨cols, []⟩)).1
          (outBase ++ "/" ++ name) = some written ∧
      written.rows = [] ∧
      (quick_profile written K).1 = 0 ∧
      ∀ s ∈ (quick_profile written K).2, s.nulls = 0 ∧ s.distinct = 0 := by
  have hsample : (sampleTable seed num den ⟨cols, []⟩).rows = [] := rfl
  refine ⟨hsample, capTable 100000 (sampleTable seed num den ⟨cols, []⟩), ?_, ?_, ?_, ?_⟩
  · simp [processOne, writeParquet]
  · simp [capTable, hsample]
  · simp [quick_profile, capTable, hsample]
  · intro s hs
    obtain ⟨j, c, rfl⟩ := mem_profileCols hs
    constructor <;> simp [profileCol, colValues, capTable, hsample]

/-- Witness for C7: the pipeline on an empty one-column raw table. -/
theorem empty_raw_pipeline_witness :
    (sampleTable 42 1 100 ⟨["id"], []⟩).rows = [] ∧
    ∃ written,
      (processOne (fsEmpty, []) ("order_sample", sampleTable 42 1 100 ⟨["id"], []⟩)).1
          (outBase ++ "/" ++ "order_sample") = some written ∧
      written.rows = [] ∧
      (quick_profile written 10).1 = 0 ∧
      ∀ s ∈ (quick_profile written 10).2, s.nulls = 0 ∧ s.distinct = 0 :=
  empty_raw_pipeline ["id"] 42 1 100 10 fsEmpty [] "order_sample"

/-- Counterexample for C8: in `fs8` the order file is missing while the
consumer, restaurant and ab-test files are present, yet the whole run
aborts with the read error — no dataset is sampled, written or profiled,
contradicting "does not abort the processing of the other configured
datasets". -/
theorem missing_raw_counterexample :
    fs8 pOrder = none ∧ fs8 pConsumer = some tinyTable ∧
    fs8 pRestaurant = some tinyTable ∧ fs8 pAbTest = some tinyTable ∧
    runMain fs8 fsEmpty =
      Except.error ("AnalysisException: Path does not exist: " ++ pOrder) :=
  ⟨rfl, rfl, rfl, rfl, rfl⟩

/-- C8 as amended: a missing raw file for any of the four configured
datasets makes the corresponding read raise, and the error propagates out
of `main` — the entire run aborts and no dataset is processed. -/
theorem missing_raw_aborts_run (rawFs : FsT) (outFs : FsT)
    (h : rawFs pOrder = none ∨ rawFs pConsumer = none ∨
         rawFs pRestaurant = none ∨ rawFs pAbTest = none) :
    ∃ e, runMain rawFs outFs = Except.error e := by
  cases ho : rawFs pOrder with
  | none =>
    exact ⟨"AnalysisException: Path does not exist: " ++ pOrder,
      by simp [runMain, readPermissive, ho]⟩
  | some dfO =>
    cases hc : rawFs pConsumer with
    | none =>
      exact ⟨"AnalysisException: Path does not exist: " ++ pConsumer,
        by simp [runMain, readPermissive, ho, hc]⟩
    | some dfC =>
      cases hr : rawFs pRestaurant with
      | none =>
        exact ⟨"AnalysisException: Path does not exist: " ++ pRestaurant,
          by simp [runMain, readPermissive, ho, hc, hr]⟩
      | some dfR =>
        cases ha : rawFs pAbTest with
        | none =>
          exact ⟨"AnalysisException: Path does not exist: " ++ pAbTest,
            by simp [runMain, readPermissive, ho, hc, hr, ha]⟩
        | some dfA => rcases h with h | h | h | h <;> simp_all

/-- Witness for the amended C8 at the concrete filesystem `fs8`. -/
theorem missing_raw_aborts_run_witness :
    (fs8 pOrder = none ∨ fs8 pConsumer = none ∨
     fs8 pRestaurant = none ∨ fs8 pAbTest = none) ∧
    ∃ e, runMain fs8 fsEmpty = Except.error e :=
  ⟨Or.inl rfl, missing_raw_aborts_run fs8 fsEmpty (Or.inl rfl)⟩

/-- Counterexample for C9: with two configured resources where the first
answers 404, the run ends with the HTTPError and the second resource is
never downloaded — contradicting "the remaining configured resources are
still downloaded". -/
theorem non2xx_counterexample :
    (resp9 "https://example.com/a.csv.gz").status = 404 ∧
    (downloadMain resp9 files9 fsbEmpty).2 = Except.error "HTTPError" ∧
    (downloadMain resp9 files9 fsbEmpty).1 "data/raw/b.csv.gz" = none :=
  ⟨rfl, rfl, rfl⟩

/-- C9 as amended: a non-2xx response for a resource raises `HTTPError`,
which propagates out of `main` — that resource's destination is left
untouched and none of the remaining configured resources is downloaded
(resources earlier in the iteration order keep their downloaded files). -/
theorem non2xx_aborts_remaining (resp : String → HttpResp) (fs : FsB)
    (fname url : String) (rest : List (String × String))
    (h : ¬(200 ≤ (resp url).status ∧ (resp url).status < 300)) :
    downloadMain resp ((fname, url) :: rest) fs = (fs, Except.error "HTTPError") := by
  simp [downloadMain, download_file, raiseForStatus, h]

/-- Witness for the amended C9 at the concrete server `resp9`. -/
theorem non2xx_aborts_remaining_witness :
    ¬(200 ≤ (resp9 "https://example.com/a.csv.gz").status ∧
      (resp9 "https://example.com/a.csv.gz").status < 300) ∧
    downloadMain resp9
        [("a.csv.gz", "https://example.com/a.csv.gz"),
         ("b.csv.gz", "https://example.com/b.csv.gz")] fsbEmpty =
      (fsbEmpty, Except.error "HTTPError") :=
  ⟨by decide,
   non2xx_aborts_remaining resp9 fsbEmpty "a.csv.gz" "https://example.com/a.csv.gz"
     [("b.csv.gz", "https://example.com/b.csv.gz")] (by decide)⟩

/-- C10: the downloader writes chunks directly to the final destination
path; when the transfer is interrupted after the file is opened, the run
raises and the destination holds exactly the delivered bytes — a
truncated partial file that is neither the full content nor the prior
content, and no other (temporary) path is touched. -/
theorem download_interruption_truncates (resp : String → HttpResp) (fs : FsB)
    (url dest : String)
    (h2 : 200 ≤ (resp url).status ∧ (resp url).status < 300)
    (hint : (resp url).interrupted = true)
    (hne : bytesWritten (resp url) ≠
      (((resp url).body.filter (fun c => c ≠ [])).flatten))
    (hprior : fs dest ≠ some (bytesWritten (resp url))) :
    (download_file resp url fs dest).2 = Except.error "ConnectionError" ∧
    (download_file resp url fs dest).1 dest = some (bytesWritten (resp url)) ∧
    (∀ p, p ≠ dest → (download_file resp url fs dest).1 p = fs p) ∧
    (download_file resp url fs dest).1 dest ≠
      some (((resp url).body.filter (fun c => c ≠ [])).flatten) ∧
    (download_file resp url fs dest).1 dest ≠ fs dest := by
  have hdf : download_file resp url fs dest =
      ((fun p => if p = dest then some (bytesWritten (resp url)) else fs p),
        Except.error "ConnectionError") := by
    simp [download_file, raiseForStatus, h2, hint]
  refine ⟨by simp [hdf], by simp [hdf], fun p hp => by simp [hdf, hp], ?_, ?_⟩
  · simp only [hdf, if_pos rfl]
    exact fun hcontra => hne (Option.some.inj hcontra)
  · simp only [hdf, if_pos rfl]
    exact fun hcontra => hprior hcontra.symm

/-- Witness for C10: a 200 response streaming one of two chunks and then
breaking leaves `[1, 2]` at the destination, not the full `[1, 2, 3, 4]`
and not the prior (absent) content. -/
theorem download_interruption_truncates_witness :
    (200 ≤ (respTrunc "u").status ∧ (respTrunc "u").status < 300) ∧
    (respTrunc "u").interrupted = true ∧
    (download_file respTrunc "u" fsbEmpty "data/raw/consumer.csv.gz").2 =
      Except.error "ConnectionError" ∧
    (download_file respTrunc "u" fsbEmpty "data/raw/consumer.csv.gz").1
        "data/raw/consumer.csv.gz" = some (bytesWritten (respTrunc "u")) ∧
    (download_file respTrunc "u" fsbEmpty "data/raw/consumer.csv.gz").1
        "data/raw/consumer.csv.gz" ≠
      some ((((respTrunc "u").body.filter (fun c => c ≠ [])).flatten)) ∧
    (download_file respTrunc "u" fsbEmpty "data/raw/consumer.csv.gz").1
        "data/raw/consumer.csv.gz" ≠ fsbEmpty "data/raw/consumer.csv.gz" := by
  have h := download_interruption_truncates respTrunc fsbEmpty "u"
    "data/raw/consumer.csv.gz" (by decide) (by decide) (by decide) (by decide)
  exact ⟨by decide, by decide, h.1, h.2.1, h.2.2.2.1, h.2.2.2.2⟩

end OrdersProject
